import Mathlib

/-!
Groq agent (`src/App.jsx`): key resolver and request controller.

A shallow embedding of the two functions of `src/App.jsx` that carry logic,
`getInitialApiKey` and `sendPrompt`, together with the part of the JavaScript
runtime they rely on (string trimming, truthiness, optional chaining,
`JSON.stringify`, `Array.prototype.join`, `String(...)`).

Modelling conventions.

* A JavaScript string is its sequence of UTF-16 code units (`JStr`).
* A value produced by `res.json()` is a `Json` tree; `undefined` is the `none`
  of `Option Json`.  A number is carried by its canonical rendering
  (`Number::toString`), which is all the program ever observes of a number
  (truthiness and printing); no arithmetic on numbers takes place.
* The React state of the component is the record `State`; `sendPrompt` is
  embedded as the list of effects it performs, in program order, for a given
  outcome of its single `fetch`.  The final state is obtained by applying the
  effects one after the other.  Events of other handlers that might interleave
  with the pending request are not part of the model.
* A property read that the source protects by `try`/`catch` may fail (`Read.threw`).
  Each property is read with a stable result (the source reads a key once in the
  condition and once more in the `return`).
-/

namespace GroqAgent

/-! ## Strings -/

/-- JavaScript string, as the list of its UTF-16 code units. -/
abbrev JStr := List Nat

/-- UTF-16 encoding of one Unicode scalar value. -/
def utf16 (c : Char) : JStr :=
  if c.toNat < 0x10000 then [c.toNat]
  else [0xD800 + (c.toNat - 0x10000) / 0x400, 0xDC00 + (c.toNat - 0x10000) % 0x400]

/-- The JavaScript string denoted by a source literal. -/
def lit (s : String) : JStr := s.toList.flatMap utf16

/-- Code units that `String.prototype.trim` strips: ECMAScript `WhiteSpace`
(TAB, VT, FF, SP, NBSP, ZWNBSP and the category Zs) and `LineTerminator`
(LF, CR, LS, PS). -/
def isWhiteSpace (u : Nat) : Bool :=
  u == 0x09 || u == 0x0A || u == 0x0B || u == 0x0C || u == 0x0D || u == 0x20 ||
  u == 0xA0 || u == 0x1680 || (0x2000 ≤ u && u ≤ 0x200A) || u == 0x2028 ||
  u == 0x2029 || u == 0x202F || u == 0x205F || u == 0x3000 || u == 0xFEFF

/-- The method `String.prototype.trim`: white space removed from both ends. -/
def trim (s : JStr) : JStr :=
  ((s.dropWhile isWhiteSpace).reverse.dropWhile isWhiteSpace).reverse

/-- The operation `Number::toString` of a non-negative integer such as `res.status`. -/
def natToStr (n : Nat) : JStr := (Nat.toDigits 10 n).map Char.toNat

/-! ## JSON values -/

/-- A number as `JSON.parse` yields it: a finite double, identified by its
canonical rendering, or an infinity (a literal out of the double range). -/
inductive JNum where
  | finite (repr : JStr)
  | infinite (negative : Bool)
deriving DecidableEq, Repr

/-- The result of `JSON.parse`.  The fields of an object are its own
properties in enumeration order. -/
inductive Json where
  | null
  | bool (b : Bool)
  | num (n : JNum)
  | str (s : JStr)
  | arr (items : List Json)
  | obj (fields : List (JStr × Json))

/-- The operation `ToBoolean` of a number: every number but zero (printed `0`, whatever its sign). -/
def JNum.truthy : JNum → Bool
  | .finite r => r != lit "0"
  | .infinite _ => true

/-- The operation `Number::toString`. -/
def JNum.toStr : JNum → JStr
  | .finite r => r
  | .infinite false => lit "Infinity"
  | .infinite true => lit "-Infinity"

/-- The operation `ToBoolean` of a defined value. -/
def Json.truthy : Json → Bool
  | .null => false
  | .bool b => b
  | .num n => n.truthy
  | .str s => s != []
  | .arr _ => true
  | .obj _ => true

/-- The operation `ToBoolean` of a value that may be `undefined`. -/
def truthy : Option Json → Bool
  | none => false
  | some v => v.truthy

/-- The operator `a || b`. -/
def jsOr (a b : Option Json) : Option Json := if truthy a then a else b

/-- The read `v.k` of a name `k` on a value other than `null`.  Only an object
has own properties under the names this program reads (`choices`, `message`,
`content`, `text`); no prototype of a parsed value defines any of them. -/
def getField (v : Json) (k : JStr) : Option Json :=
  match v with
  | .obj fields => fields.lookup k
  | _ => none

/-- The read `v.k` where `v` may be `null`: a `TypeError` (`Except.error`) then. -/
def member (v : Json) (k : JStr) : Except Unit (Option Json) :=
  match v with
  | .null => .error ()
  | _ => .ok (getField v k)

/-- Optional chaining `v?.k`. -/
def optMember (v : Option Json) (k : JStr) : Option Json :=
  match v with
  | none => none
  | some .null => none
  | some w => getField w k

/-- Optional chaining `v?.[0]`: the first element of an array, the first code
unit of a string, the property `"0"` of an object. -/
def optIndex0 (v : Option Json) : Option Json :=
  match v with
  | some (.arr items) => items.head?
  | some (.str s) => s.head?.map (fun u => Json.str [u])
  | some (.obj fields) => fields.lookup (lit "0")
  | _ => none

/-! ## `JSON.stringify` -/

/-- One lowercase hexadecimal digit. -/
def hexDigit (d : Nat) : Nat := if d < 10 then 48 + d else 87 + d

/-- The escape `\uXXXX` of a code unit. -/
def unicodeEscape (u : Nat) : JStr :=
  [0x5C, 0x75, hexDigit (u / 4096 % 16), hexDigit (u / 256 % 16), hexDigit (u / 16 % 16),
    hexDigit (u % 16)]

/-- The rendering of a code unit that is not a surrogate inside a JSON string. -/
def escapeUnit (u : Nat) : JStr :=
  if u = 0x08 then [0x5C, 0x62]
  else if u = 0x09 then [0x5C, 0x74]
  else if u = 0x0A then [0x5C, 0x6E]
  else if u = 0x0C then [0x5C, 0x66]
  else if u = 0x0D then [0x5C, 0x72]
  else if u = 0x22 then [0x5C, 0x22]
  else if u = 0x5C then [0x5C, 0x5C]
  else if u < 0x20 then unicodeEscape u
  else [u]

/-- The first half of a surrogate pair. -/
def isLeadSurrogate (u : Nat) : Bool := 0xD800 ≤ u && u ≤ 0xDBFF

/-- The second half of a surrogate pair. -/
def isTrailSurrogate (u : Nat) : Bool := 0xDC00 ≤ u && u ≤ 0xDFFF

/-- The body of `QuoteJSONString`: a surrogate pair is kept, a lone surrogate
is escaped. -/
def quoteUnits : JStr → JStr
  | [] => []
  | [u] => if isLeadSurrogate u || isTrailSurrogate u then unicodeEscape u else escapeUnit u
  | u :: v :: rest =>
    if isLeadSurrogate u then
      if isTrailSurrogate v then u :: v :: quoteUnits rest
      else unicodeEscape u ++ quoteUnits (v :: rest)
    else if isTrailSurrogate u then unicodeEscape u ++ quoteUnits (v :: rest)
    else escapeUnit u ++ quoteUnits (v :: rest)

/-- The operation `QuoteJSONString`. -/
def quote (s : JStr) : JStr := [0x22] ++ quoteUnits s ++ [0x22]

mutual
/-- The call `JSON.stringify(v)` with neither replacer nor indentation. -/
def stringify : Json → JStr
  | .null => lit "null"
  | .bool b => if b then lit "true" else lit "false"
  | .num (.finite r) => r
  | .num (.infinite _) => lit "null"
  | .str s => quote s
  | .arr items => [0x5B] ++ stringifyItems items ++ [0x5D]
  | .obj fields => [0x7B] ++ stringifyFields fields ++ [0x7D]
/-- The elements of an array, separated by commas. -/
def stringifyItems : List Json → JStr
  | [] => []
  | [x] => stringify x
  | x :: y :: rest => stringify x ++ [0x2C] ++ stringifyItems (y :: rest)
/-- The members of an object, `key:value` separated by commas. -/
def stringifyFields : List (JStr × Json) → JStr
  | [] => []
  | [(k, v)] => quote k ++ [0x3A] ++ stringify v
  | (k, v) :: f :: rest => quote k ++ [0x3A] ++ stringify v ++ [0x2C] ++ stringifyFields (f :: rest)
end

/-! ## `ToString` and `Array.prototype.join` -/

mutual
/-- The operation `ToString(v)`, and with `inJoin` the text of `v` as an element inside
`Array.prototype.join`, where `null` prints as the empty string.  An array
prints as its elements joined by commas.  An object prints as
`[object Object]`, unless it has an own property `toString`: that property,
parsed from JSON, is not callable, and `OrdinaryToPrimitive` ends in a
`TypeError`. -/
def toStrAux (inJoin : Bool) : Json → Except Unit JStr
  | .null => .ok (if inJoin then [] else lit "null")
  | .bool b => .ok (if b then lit "true" else lit "false")
  | .num n => .ok n.toStr
  | .str s => .ok s
  | .arr items => join [0x2C] items
  | .obj fields =>
    if (fields.lookup (lit "toString")).isSome then .error () else .ok (lit "[object Object]")
/-- The call `Array.prototype.join(sep)` on an array of parsed values. -/
def join (sep : JStr) : List Json → Except Unit JStr
  | [] => .ok []
  | [x] => toStrAux true x
  | x :: y :: rest =>
    match toStrAux true x with
    | .error e => .error e
    | .ok a =>
      match join sep (y :: rest) with
      | .error e => .error e
      | .ok b => .ok (a ++ sep ++ b)
end

/-! ## Key resolver (`getInitialApiKey`, lines 5-18) -/

/-- The outcome of a property read that the source guards by `try`/`catch`. -/
inductive Read (α : Type) where
  | threw
  | value (a : α)

/-- The two globals probed on `window`. -/
structure WindowKeys where
  /-- The read `window.__REACT_APP_GROQ_API_KEY`. -/
  reactAppKey : Read (Option JStr)
  /-- The read `window.__GROQ_API_KEY`. -/
  groqKey : Read (Option JStr)

/-- The configuration that `getInitialApiKey` probes. -/
structure KeyEnv where
  /-- The read `process.env.REACT_APP_GROQ_API_KEY`; `none` when the guard
  `typeof process !== "undefined" && process && process.env` fails. -/
  processEnvKey : Option (Read (Option JStr))
  /-- The object `window`; `none` when `typeof window === "undefined"`. -/
  window : Option WindowKeys

/-- The statement `if (x) return x;` on a read `x`: an exception, a fall
through (`none`) or a returned value. -/
def returnIfTruthy (r : Read (Option JStr)) : Except Unit (Option JStr) :=
  match r with
  | .threw => .error ()
  | .value none => .ok none
  | .value (some k) => if k != [] then .ok (some k) else .ok none

/-- The statement `try { body } catch (e) {}`: an exception of the body is
swallowed and control falls through. -/
def tryCatch (body : Except Unit (Option JStr)) : Option JStr :=
  match body with
  | .error _ => none
  | .ok r => r

/-- The body of the first `try` block (lines 7-9). -/
def processBlock (env : KeyEnv) : Except Unit (Option JStr) :=
  match env.processEnvKey with
  | none => .ok none
  | some r => returnIfTruthy r

/-- The body of the second `try` block (lines 12-15). -/
def windowBlock (env : KeyEnv) : Except Unit (Option JStr) :=
  match env.window with
  | none => .ok none
  | some w =>
    match returnIfTruthy w.reactAppKey with
    | .error e => .error e
    | .ok (some k) => .ok (some k)
    | .ok none => returnIfTruthy w.groqKey

/-- The function `getInitialApiKey`; `Except.error` would be an exception
leaving the function. -/
def getInitialApiKey (env : KeyEnv) : Except Unit JStr :=
  match tryCatch (processBlock env) with
  | some k => .ok k
  | none =>
    match tryCatch (windowBlock env) with
    | some k => .ok k
    | none => .ok (lit "")

/-! ## Request controller (`sendPrompt`, lines 38-95) -/

/-- One turn of the conversation, `{ role, content }`. -/
structure ChatTurn where
  role : JStr
  content : Json

/-- The React state of `GroqAgentApp` (lines 22-26). -/
structure State where
  apiKey : JStr
  prompt : JStr
  messages : List ChatTurn
  loading : Bool
  error : JStr

/-- A thrown `Error` object. -/
structure JsError where
  name : JStr
  message : JStr

/-- The arguments of the call of `fetch` (lines 59-66). -/
structure Request where
  url : JStr
  method : JStr
  headers : List (JStr × JStr)
  body : JStr

/-- The response `fetch` resolves to, with the outcomes of reading its body. -/
structure Response where
  status : Nat
  /-- The outcome of `await res.text()`. -/
  text : Except JsError JStr
  /-- The outcome of `await res.json()`. -/
  json : Except JsError Json

/-- The flag `res.ok`: the status lies in 200-299. -/
def Response.ok (res : Response) : Bool := 200 ≤ res.status && res.status ≤ 299

/-- The outcome of `await fetch(...)`. -/
inductive FetchResult where
  | rejected (e : JsError)
  | resolved (res : Response)

/-- What `sendPrompt` does to the world, one constructor per kind of statement. -/
inductive Effect where
  | setError (e : JStr)
  | appendMessage (t : ChatTurn)
  | setPrompt (p : JStr)
  | setLoading (b : Bool)
  | fetch (req : Request)
  | consoleError (e : JsError)

/-- The state after one effect; `setMessages((m) => [...m, t])` appends. -/
def State.step (s : State) : Effect → State
  | .setError e => { s with error := e }
  | .appendMessage t => { s with messages := s.messages ++ [t] }
  | .setPrompt p => { s with prompt := p }
  | .setLoading b => { s with loading := b }
  | .fetch _ => s
  | .consoleError _ => s

/-- The state after a sequence of effects. -/
def State.run (s : State) (effects : List Effect) : State := effects.foldl State.step s

/-- The calls of `fetch` among the effects. -/
def requestsOf : List Effect → List Request
  | [] => []
  | .fetch req :: rest => req :: requestsOf rest
  | _ :: rest => requestsOf rest

/-- The method `Error.prototype.toString`. -/
def errorToString (e : JsError) : JStr :=
  if e.name = [] then e.message
  else if e.message = [] then e.name
  else e.name ++ lit ": " ++ e.message

/-- The expression `String(err.message || err)` (line 91). -/
def errorText (e : JsError) : JStr :=
  if e.message != [] then e.message else errorToString e

/-- The constant `groqEndpoint` (line 36). -/
def groqEndpoint : JStr := lit "https://api.groq.com/openai/v1/chat/completions"

/-- The message of line 43. -/
def missingKeyMessage : JStr :=
  lit "Missing Groq API key. Paste it in the box or use a backend proxy."

/-- The callback of `content.map` (line 81):
`typeof c === "string" ? c : c.text || JSON.stringify(c)`. -/
def fragmentText (c : Json) : Except Unit Json :=
  match c with
  | .str s => .ok (.str s)
  | _ =>
    match member c (lit "text") with
    | .error e => .error e
    | .ok (some t) => if t.truthy then .ok t else .ok (.str (stringify c))
    | .ok none => .ok (.str (stringify c))

/-- The call `content.map(...)`: the callback on every element, in order. -/
def mapFragments : List Json → Except Unit (List Json)
  | [] => .ok []
  | c :: rest =>
    match fragmentText c with
    | .error e => .error e
    | .ok t =>
      match mapFragments rest with
      | .error e => .error e
      | .ok ts => .ok (t :: ts)

/-- The expression `data?.choices?.[0]` (line 77). -/
def firstChoice (data : Json) : Option Json :=
  optIndex0 (optMember (some data) (lit "choices"))

/-- The expression `choice?.message?.content || choice?.content || choice?.text`
(line 78). -/
def choiceContent (choice : Option Json) : Option Json :=
  jsOr (jsOr (optMember (optMember choice (lit "message")) (lit "content"))
    (optMember choice (lit "content"))) (optMember choice (lit "text"))

/-- The expression `choice || data` (line 79). -/
def choiceOrData (choice : Option Json) (data : Json) : Json :=
  match choice with
  | some c => if c.truthy then c else data
  | none => data

/-- The body of the inner `try` (lines 77-83): the value assigned to
`assistantContent`, or an exception. -/
def extractContent (data : Json) : Except Unit Json :=
  let choice := firstChoice data
  match choiceContent choice with
  | none => .ok (.str (stringify (choiceOrData choice data)))
  | some content =>
    if !content.truthy then .ok (.str (stringify (choiceOrData choice data)))
    else
      match content with
      | .arr items =>
        match mapFragments items with
        | .error e => .error e
        | .ok parts =>
          match join (lit "\n") parts with
          | .error e => .error e
          | .ok joined => .ok (.str joined)
      | .str s => .ok (.str s)
      | _ =>
        match getField content (lit "text") with
        | some t => if t.truthy then .ok t else .ok (.str (stringify content))
        | none => .ok (.str (stringify content))

/-- The value of `assistantContent` after lines 75-86: the inner `catch`
replaces an exception by `JSON.stringify(data)`. -/
def assistantContent (data : Json) : Json :=
  match extractContent data with
  | .ok v => v
  | .error _ => .str (stringify data)

/-- The object `body` (lines 52-57). -/
def requestBody (text : JStr) : Json :=
  .obj [
    (lit "model", .str (lit "meta-llama/llama-4-scout-17b-16e-instruct")),
    (lit "messages", .arr [.obj [
      (lit "role", .str (lit "user")),
      (lit "content", .arr [.obj [(lit "type", .str (lit "text")), (lit "text", .str text)]])]]),
    (lit "temperature", .num (.finite (lit "0.2"))),
    (lit "max_tokens", .num (.finite (lit "1024")))]

/-- The arguments of `fetch` (lines 59-66). -/
def buildRequest (text apiKey : JStr) : Request :=
  { url := groqEndpoint
    method := lit "POST"
    headers := [(lit "Content-Type", lit "application/json"),
      (lit "Authorization", lit "Bearer " ++ apiKey)]
    body := stringify (requestBody text) }

/-- The outer `try` block (lines 52-88) for a given outcome of `fetch`: the
effects performed and the error thrown, if any. -/
def tryBlock (text apiKey : JStr) (reply : FetchResult) : List Effect × Option JsError :=
  let req := buildRequest text apiKey
  match reply with
  | .rejected e => ([.fetch req], some e)
  | .resolved res =>
    if !res.ok then
      match res.text with
      | .error e => ([.fetch req], some e)
      | .ok errText =>
        ([.fetch req],
          some ⟨lit "Error", lit "API Error: " ++ natToStr res.status ++ lit " " ++ errText⟩)
    else
      match res.json with
      | .error e => ([.fetch req], some e)
      | .ok data => ([.fetch req, .appendMessage ⟨lit "assistant", assistantContent data⟩], none)

/-- The `catch` block (lines 89-91). -/
def catchBlock : Option JsError → List Effect
  | some err => [.consoleError err, .setError (errorText err)]
  | none => []

/-- The function `sendPrompt`: its effects in program order, for the state
captured by the closure and the outcome of its call of `fetch`. -/
def sendPrompt (s : State) (reply : FetchResult) : List Effect :=
  let text := trim s.prompt
  .setError [] ::
    (if text = [] then []
    else if s.apiKey = [] then [.setError missingKeyMessage]
    else
      [.appendMessage ⟨lit "user", .str text⟩, .setPrompt [], .setLoading true] ++
        (tryBlock text s.apiKey reply).1 ++ catchBlock (tryBlock text s.apiKey reply).2 ++
        [.setLoading false])

/-- The state once `sendPrompt` has completed. -/
def sendPromptState (s : State) (reply : FetchResult) : State :=
  s.run (sendPrompt s reply)

/-! ## The key resolver as the specification words it -/

/-- One configuration source as the specification describes it: inaccessible,
undefined, or holding a string. -/
inductive Source where
  | inaccessible
  | undefined
  | value (k : JStr)
deriving DecidableEq

/-- The source behind a guarded read. -/
def Source.ofRead : Read (Option JStr) → Source
  | .threw => .inaccessible
  | .value none => .undefined
  | .value (some k) => .value k

/-- The source (a), `process.env.REACT_APP_GROQ_API_KEY`. -/
def KeyEnv.buildTimeSource (env : KeyEnv) : Source :=
  match env.processEnvKey with
  | none => .inaccessible
  | some r => Source.ofRead r

/-- The source (b), `window.__REACT_APP_GROQ_API_KEY`. -/
def KeyEnv.primarySource (env : KeyEnv) : Source :=
  match env.window with
  | none => .inaccessible
  | some w => Source.ofRead w.reactAppKey

/-- The source (c), `window.__GROQ_API_KEY`. -/
def KeyEnv.legacySource (env : KeyEnv) : Source :=
  match env.window with
  | none => .inaccessible
  | some w => Source.ofRead w.groqKey

/-- The resolution rule in the words of the specification: the first source,
in the order given, that holds a non-empty string, else the empty string. -/
def specResolveApiKey : List Source → JStr
  | [] => lit ""
  | .value k :: rest => if k != [] then k else specResolveApiKey rest
  | _ :: rest => specResolveApiKey rest

/-- A page without `process` where reading `window.__REACT_APP_GROQ_API_KEY`
throws (an accessor property) and `window.__GROQ_API_KEY` is `gsk_legacy`. -/
def throwingPrimaryEnv : KeyEnv :=
  { processEnvKey := none
    window := some { reactAppKey := .threw, groqKey := .value (some (lit "gsk_legacy")) } }

/-! ## Sample inputs -/

/-- A response with status 200 whose body is the serialization of `data`. -/
def okResponse (data : Json) : Response := ⟨200, .ok (stringify data), .ok data⟩

/-- The payload `{"choices":[choice]}`. -/
def payloadOfChoice (choice : Json) : Json := .obj [(lit "choices", .arr [choice])]

/-- The payload `{"choices":[{"message":{"content":content}}]}`. -/
def payloadOfContent (content : Json) : Json :=
  payloadOfChoice (.obj [(lit "message", .obj [(lit "content", content)])])

/-- A fresh component with key `k` in which ` hi ` has been typed. -/
def typedState : State :=
  { apiKey := lit "k", prompt := lit " hi ", messages := [], loading := false, error := [] }

/-- A component showing one earlier exchange and the error of a failed request,
with a prompt of two spaces. -/
def staleErrorState : State :=
  { apiKey := lit "k", prompt := lit "  ",
    messages := [⟨lit "user", .str (lit "q")⟩],
    loading := false, error := lit "API Error: 401 invalid key" }

/-- A response with status 200 whose body is cut short, so that `res.json()`
rejects with a `SyntaxError`. -/
def truncatedResponse : Response :=
  ⟨200, .ok [0x7B], .error ⟨lit "SyntaxError", lit "Unexpected end of JSON input"⟩⟩

/-- A response with status 401 and body `invalid key`. -/
def unauthorizedResponse : Response :=
  ⟨401, .ok (lit "invalid key"), .error ⟨lit "SyntaxError", lit "Unexpected token i in JSON"⟩⟩

/-- The fragment `{"type":"text","text":t}`. -/
def textFragment (t : JStr) : Json := .obj [(lit "type", .str (lit "text")), (lit "text", .str t)]

/-- A first choice whose `message.content` is the empty string and whose own
`content` is `hi`. -/
def shadowedChoice : Json :=
  .obj [(lit "message", .obj [(lit "content", .str [])]), (lit "content", .str (lit "hi"))]

/-- A first choice with a `null` message content, an empty `content` and the
text `hey`. -/
def textOnlyChoice : Json :=
  .obj [(lit "message", .obj [(lit "content", .null)]), (lit "content", .str []),
    (lit "text", .str (lit "hey"))]

/-! ## Auxiliary facts -/

/-- A string made of white space only trims to the empty string. -/
theorem trim_eq_nil_of_white (p : JStr) (h : ∀ u ∈ p, isWhiteSpace u = true) : trim p = [] := by
  have h1 : p.dropWhile isWhiteSpace = [] := List.dropWhile_eq_nil_iff.mpr h
  simp [trim, h1]

/-- The effects of `sendPrompt` when the response is 2xx and its body parses. -/
theorem sendPrompt_of_json (s : State) (res : Response) (data : Json)
    (hp : trim s.prompt ≠ []) (hk : s.apiKey ≠ []) (hok : res.ok = true)
    (hj : res.json = .ok data) :
    sendPrompt s (.resolved res) =
      [.setError [], .appendMessage ⟨lit "user", .str (trim s.prompt)⟩, .setPrompt [],
        .setLoading true, .fetch (buildRequest (trim s.prompt) s.apiKey),
        .appendMessage ⟨lit "assistant", assistantContent data⟩, .setLoading false] := by
  simp [sendPrompt, tryBlock, catchBlock, hp, hk, hok, hj]

/-- The final state when the response is 2xx and its body parses. -/
theorem sendPromptState_of_json (s : State) (res : Response) (data : Json)
    (hp : trim s.prompt ≠ []) (hk : s.apiKey ≠ []) (hok : res.ok = true)
    (hj : res.json = .ok data) :
    sendPromptState s (.resolved res) =
      { apiKey := s.apiKey, prompt := [], loading := false, error := [],
        messages := s.messages ++ [⟨lit "user", .str (trim s.prompt)⟩,
          ⟨lit "assistant", assistantContent data⟩] } := by
  simp [sendPromptState, sendPrompt_of_json s res data hp hk hok hj, State.run, State.step]

/-- A non-empty string selected by line 78 is displayed as it is. -/
theorem assistantContent_of_string (data : Json) (X : JStr)
    (h : choiceContent (firstChoice data) = some (.str X)) (hX : X ≠ []) :
    assistantContent data = .str X := by
  simp [assistantContent, extractContent, h, Json.truthy, hX]

/-- An error with a non-empty message is displayed by that message. -/
theorem errorText_of_message (e : JsError) (h : e.message ≠ []) : errorText e = e.message := by
  simp [errorText, h]

/-- A truthy first operand decides `||`. -/
theorem jsOr_of_truthy (a b : Option Json) (h : truthy a = true) : jsOr a b = a := by
  simp [jsOr, h]

/-- A falsy first operand passes `||` on to the second. -/
theorem jsOr_of_falsy (a b : Option Json) (h : truthy a = false) : jsOr a b = b := by
  simp [jsOr, h]

/-- The callback of `content.map` on fragments that carry a non-empty text. -/
theorem mapFragments_of_texts (items : List Json) (texts : List JStr)
    (h : List.Forall₂ (fun c t => getField c (lit "text") = some (.str t) ∧ t ≠ []) items texts) :
    mapFragments items = .ok (texts.map Json.str) := by
  induction h with
  | nil => rfl
  | @cons c t items texts hct _ ih =>
    have hf : fragmentText c = .ok (.str t) := by
      cases c <;> simp_all [fragmentText, member, getField, Json.truthy]
    simp [mapFragments, hf, ih]

/-- The call `join` on strings is the interleaving with the separator. -/
theorem join_strings (sep : JStr) (texts : List JStr) :
    join sep (texts.map Json.str) = .ok (List.intercalate sep texts) := by
  induction texts with
  | nil => rfl
  | cons t rest ih =>
    cases rest with
    | nil => simp [join, toStrAux, List.intercalate]
    | cons t2 rest2 =>
      simp only [List.map_cons] at ih ⊢
      simp [join, toStrAux, ih, List.intercalate]

/-- The callback of `content.map` throws on a `null` element, whatever the
other elements are. -/
theorem mapFragments_of_null (items : List Json) (h : Json.null ∈ items) :
    mapFragments items = .error () := by
  induction items with
  | nil => cases h
  | cons c rest ih =>
    rcases List.mem_cons.mp h with hc | hr
    · subst hc
      simp [mapFragments, fragmentText, member]
    · cases hf : fragmentText c with
      | error e => simp [mapFragments, hf]
      | ok t => simp [mapFragments, hf, ih hr]

/-- A content array that holds `null` is displayed as the serialized payload. -/
theorem assistantContent_of_null_fragment (data : Json) (items : List Json)
    (hsel : choiceContent (firstChoice data) = some (.arr items)) (hnull : Json.null ∈ items) :
    assistantContent data = .str (stringify data) := by
  simp [assistantContent, extractContent, hsel, Json.truthy, mapFragments_of_null items hnull]

/-- The value displayed is a string, the extracted text or the serialized
payload, as soon as line 83 meets no truthy `text` field that is not a string. -/
theorem assistantContent_is_text (data : Json)
    (hns : ∀ fields t, choiceContent (firstChoice data) = some (.obj fields) →
      fields.lookup (lit "text") = some t → t.truthy = true → ∃ x, t = .str x) :
    ∃ text : JStr, assistantContent data = .str text ∧
      (extractContent data = .ok (.str text) ∨ text = stringify data) := by
  unfold assistantContent
  cases hx : extractContent data with
  | error e => exact ⟨stringify data, rfl, Or.inr rfl⟩
  | ok v =>
    suffices hv : ∃ text, v = .str text by
      obtain ⟨text, rfl⟩ := hv
      exact ⟨text, rfl, Or.inl rfl⟩
    unfold extractContent at hx
    cases hsel : choiceContent (firstChoice data) with
    | none =>
      simp only [hsel] at hx
      exact ⟨_, (Except.ok.inj hx).symm⟩
    | some content =>
      simp only [hsel] at hx
      cases htr : content.truthy with
      | false =>
        simp only [htr, Bool.not_false, if_true] at hx
        exact ⟨_, (Except.ok.inj hx).symm⟩
      | true =>
        simp only [htr, Bool.not_true, Bool.false_eq_true, if_false] at hx
        cases content with
        | null => simp [Json.truthy] at htr
        | bool b =>
          simp only [getField] at hx
          exact ⟨_, (Except.ok.inj hx).symm⟩
        | num n =>
          simp only [getField] at hx
          exact ⟨_, (Except.ok.inj hx).symm⟩
        | str x => exact ⟨_, (Except.ok.inj hx).symm⟩
        | arr items =>
          simp only at hx
          cases hm : mapFragments items with
          | error e => simp [hm] at hx
          | ok parts =>
            simp only [hm] at hx
            cases hjn : join (lit "\n") parts with
            | error e => simp [hjn] at hx
            | ok joined =>
              simp only [hjn] at hx
              exact ⟨_, (Except.ok.inj hx).symm⟩
        | obj fields =>
          simp only [getField] at hx
          cases hl : fields.lookup (lit "text") with
          | none =>
            simp only [hl] at hx
            exact ⟨_, (Except.ok.inj hx).symm⟩
          | some t =>
            simp only [hl] at hx
            cases ht : t.truthy with
            | false =>
              simp only [ht, Bool.false_eq_true, if_false] at hx
              exact ⟨_, (Except.ok.inj hx).symm⟩
            | true =>
              simp only [ht, if_true] at hx
              obtain ⟨x, hxs⟩ := hns fields t hsel hl ht
              exact ⟨x, (Except.ok.inj hx).symm.trans hxs⟩

/-! ## The request controller: claims -/

/-- C1, refuted as stated: with `choices[0].message.content` equal to the empty
string, the assistant turn does not hold that string but the serialized first
choice. -/
theorem sendPrompt_empty_content_not_echoed :
    trim typedState.prompt ≠ [] ∧ typedState.apiKey ≠ [] ∧
    (okResponse (payloadOfContent (.str []))).ok = true ∧
    optMember (optMember (firstChoice (payloadOfContent (.str []))) (lit "message"))
      (lit "content") = some (.str []) ∧
    (sendPromptState typedState (.resolved (okResponse (payloadOfContent (.str []))))).messages =
      [⟨lit "user", .str (lit "hi")⟩,
        ⟨lit "assistant", .str (lit "\x7b\"message\":\x7b\"content\":\"\"\x7d\x7d")⟩] ∧
    (sendPromptState typedState (.resolved (okResponse (payloadOfContent (.str []))))).messages ≠
      typedState.messages ++
        [⟨lit "user", .str (trim typedState.prompt)⟩, ⟨lit "assistant", .str []⟩] := by
  refine ⟨by decide, by decide, by decide, rfl, rfl, ?_⟩
  intro h
  exact absurd (congrArg (fun m => m.map (fun t => stringify t.content)) h) (by decide)

/-- C1, as amended: for a prompt whose trimmed text is non-empty, a non-empty
key, any prior conversation and a 2xx response whose parsed body has
`choices[0].message.content` equal to a non-empty string `X`, the conversation
grows by exactly the user turn with the trimmed prompt followed by the
assistant turn with `X`. -/
theorem sendPrompt_success_appends_two_turns (s : State) (res : Response) (data : Json)
    (X : JStr) (hp : trim s.prompt ≠ []) (hk : s.apiKey ≠ []) (hok : res.ok = true)
    (hj : res.json = .ok data)
    (hc : optMember (optMember (firstChoice data) (lit "message")) (lit "content")
      = some (.str X))
    (hX : X ≠ []) :
    (sendPromptState s (.resolved res)).messages =
      s.messages ++ [⟨lit "user", .str (trim s.prompt)⟩, ⟨lit "assistant", .str X⟩] := by
  have hsel : choiceContent (firstChoice data) = some (.str X) := by
    simp [choiceContent, hc, jsOr, truthy, Json.truthy, hX]
  rw [sendPromptState_of_json s res data hp hk hok hj, assistantContent_of_string data X hsel hX]

/-- Witness of C1 (amended): the prompt ` hi ` answered by `X`. -/
theorem sendPrompt_success_appends_two_turns_witness :
    trim typedState.prompt ≠ [] ∧ typedState.apiKey ≠ [] ∧
    (sendPromptState typedState
      (.resolved (okResponse (payloadOfContent (.str (lit "X")))))).messages =
      [⟨lit "user", .str (lit "hi")⟩, ⟨lit "assistant", .str (lit "X")⟩] :=
  ⟨by decide, by decide,
    sendPrompt_success_appends_two_turns typedState
      (okResponse (payloadOfContent (.str (lit "X")))) (payloadOfContent (.str (lit "X")))
      (lit "X") (by decide) (by decide) (by decide) rfl rfl (by decide)⟩

/-- C2, refuted as stated: a prompt of two spaces submitted while an error is
displayed leaves the conversation alone but clears the error. -/
theorem sendPrompt_blank_clears_error :
    (∀ u ∈ staleErrorState.prompt, isWhiteSpace u = true) ∧
    (sendPromptState staleErrorState (.rejected ⟨lit "TypeError", lit "Failed to fetch"⟩)).error
      = [] ∧
    (sendPromptState staleErrorState (.rejected ⟨lit "TypeError", lit "Failed to fetch"⟩)).error
      ≠ staleErrorState.error := by
  refine ⟨by decide, rfl, by decide⟩

/-- C2, as amended: for a prompt that is empty or made of white space only, and
for every prior state and every behaviour of the network, `sendPrompt` performs
the single effect `setError("")`: the conversation, the key, the prompt and the
loading flag are as before, no request is issued, and the error string is reset
to the empty string. -/
theorem sendPrompt_blank_prompt (s : State) (reply : FetchResult)
    (h : ∀ u ∈ s.prompt, isWhiteSpace u = true) :
    sendPrompt s reply = [.setError []] ∧
    (sendPromptState s reply).messages = s.messages ∧
    (sendPromptState s reply).error = [] ∧
    sendPromptState s reply = { s with error := [] } := by
  have ht : trim s.prompt = [] := trim_eq_nil_of_white s.prompt h
  have he : sendPrompt s reply = [.setError []] := by simp [sendPrompt, ht]
  simp [sendPromptState, he, State.run, State.step]

/-- Witness of C2 (amended): two spaces typed over a displayed error. -/
theorem sendPrompt_blank_prompt_witness :
    (∀ u ∈ staleErrorState.prompt, isWhiteSpace u = true) ∧
    (sendPromptState staleErrorState (.resolved unauthorizedResponse)).messages
      = staleErrorState.messages ∧
    (sendPromptState staleErrorState (.resolved unauthorizedResponse)).error = [] :=
  ⟨by decide,
    (sendPrompt_blank_prompt staleErrorState (.resolved unauthorizedResponse) (by decide)).2.1,
    (sendPrompt_blank_prompt staleErrorState (.resolved unauthorizedResponse) (by decide)).2.2.1⟩

/-- C3, refuted as stated: a 2xx response whose body fails to parse surfaces the
message of the parse error and appends no assistant turn. -/
theorem sendPrompt_unparsable_body_sets_error :
    trim typedState.prompt ≠ [] ∧ typedState.apiKey ≠ [] ∧ truncatedResponse.ok = true ∧
    (sendPromptState typedState (.resolved truncatedResponse)).error
      = lit "Unexpected end of JSON input" ∧
    (sendPromptState typedState (.resolved truncatedResponse)).error ≠ [] ∧
    (sendPromptState typedState (.resolved truncatedResponse)).messages
      = [⟨lit "user", .str (lit "hi")⟩] := by
  refine ⟨by decide, by decide, by decide, rfl, by decide, rfl⟩

/-- C3, as amended: for a non-empty trimmed prompt, a non-empty key and a 2xx
response whose body parses as JSON, whatever the shape of the payload, the
error string ends empty and the conversation grows by the user turn and one
assistant turn.  Unless the content selected on line 78 is an object whose
`text` field is truthy and not a string, that turn holds a string: the
extracted text or the serialized raw payload.  A content array that holds
`null` makes the extraction throw, and the turn holds the serialized raw
payload. -/
theorem sendPrompt_parsed_body_no_error (s : State) (res : Response) (data : Json)
    (hp : trim s.prompt ≠ []) (hk : s.apiKey ≠ []) (hok : res.ok = true)
    (hj : res.json = .ok data) :
    (sendPromptState s (.resolved res)).error = [] ∧
    (∃ c : Json, (sendPromptState s (.resolved res)).messages =
      s.messages ++ [⟨lit "user", .str (trim s.prompt)⟩, ⟨lit "assistant", c⟩]) ∧
    ((∀ fields t, choiceContent (firstChoice data) = some (.obj fields) →
        fields.lookup (lit "text") = some t → t.truthy = true → ∃ x, t = .str x) →
      ∃ text : JStr,
        (sendPromptState s (.resolved res)).messages =
          s.messages ++ [⟨lit "user", .str (trim s.prompt)⟩, ⟨lit "assistant", .str text⟩] ∧
        (extractContent data = .ok (.str text) ∨ text = stringify data)) ∧
    (∀ items, choiceContent (firstChoice data) = some (.arr items) → Json.null ∈ items →
      (sendPromptState s (.resolved res)).messages =
        s.messages ++ [⟨lit "user", .str (trim s.prompt)⟩,
          ⟨lit "assistant", .str (stringify data)⟩]) := by
  rw [sendPromptState_of_json s res data hp hk hok hj]
  refine ⟨rfl, ⟨assistantContent data, rfl⟩, ?_, ?_⟩
  · intro hns
    obtain ⟨text, h1, h2⟩ := assistantContent_is_text data hns
    exact ⟨text, by simp [h1], h2⟩
  · intro items hsel hnull
    simp [assistantContent_of_null_fragment data items hsel hnull]

/-- Witness of C3 (amended): a content array holding `null` makes the
extraction throw, and the serialized payload is displayed without an error; a
content object with the text `hey` is displayed as `hey`. -/
theorem sendPrompt_parsed_body_no_error_witness :
    trim typedState.prompt ≠ [] ∧ typedState.apiKey ≠ [] ∧
    (sendPromptState typedState
      (.resolved (okResponse (payloadOfContent (.arr [.null]))))).error = [] ∧
    (sendPromptState typedState
      (.resolved (okResponse (payloadOfContent (.arr [.null]))))).messages =
      [⟨lit "user", .str (lit "hi")⟩,
        ⟨lit "assistant",
          .str (lit "\x7b\"choices\":[\x7b\"message\":\x7b\"content\":[null]\x7d\x7d]\x7d")⟩] ∧
    (∃ text : JStr,
      (sendPromptState typedState (.resolved (okResponse
        (payloadOfContent (.obj [(lit "text", .str (lit "hey"))]))))).messages =
        typedState.messages ++ [⟨lit "user", .str (trim typedState.prompt)⟩,
          ⟨lit "assistant", .str text⟩] ∧
      (extractContent (payloadOfContent (.obj [(lit "text", .str (lit "hey"))]))
          = .ok (.str text) ∨
        text = stringify (payloadOfContent (.obj [(lit "text", .str (lit "hey"))])))) :=
  ⟨by decide, by decide,
    (sendPrompt_parsed_body_no_error typedState (okResponse (payloadOfContent (.arr [.null])))
      (payloadOfContent (.arr [.null])) (by decide) (by decide) (by decide) rfl).1,
    (sendPrompt_parsed_body_no_error typedState (okResponse (payloadOfContent (.arr [.null])))
      (payloadOfContent (.arr [.null])) (by decide) (by decide) (by decide) rfl).2.2.2
      [.null] rfl (List.mem_singleton.mpr rfl),
    (sendPrompt_parsed_body_no_error typedState
      (okResponse (payloadOfContent (.obj [(lit "text", .str (lit "hey"))])))
      (payloadOfContent (.obj [(lit "text", .str (lit "hey"))]))
      (by decide) (by decide) (by decide) rfl).2.2.1
      (fun fields t hsel hlook _ => by
        have hf : fields = [(lit "text", Json.str (lit "hey"))] :=
          (Json.obj.inj (Option.some.inj hsel)).symm
        subst hf
        exact ⟨lit "hey", (Option.some.inj hlook).symm⟩)⟩

/-- C4: for a non-empty trimmed prompt, a non-empty key and a response outside
200-299 with status `st` and body text `b`, only the user turn is appended, the
error is `"API Error: " + st + " " + b` (which contains the status and the
body), and the loading flag ends `false`. -/
theorem sendPrompt_api_error (s : State) (res : Response) (b : JStr)
    (hp : trim s.prompt ≠ []) (hk : s.apiKey ≠ []) (hok : res.ok = false)
    (hb : res.text = .ok b) :
    (sendPromptState s (.resolved res)).messages
      = s.messages ++ [⟨lit "user", .str (trim s.prompt)⟩] ∧
    (sendPromptState s (.resolved res)).error
      = lit "API Error: " ++ natToStr res.status ++ lit " " ++ b ∧
    natToStr res.status <:+: (sendPromptState s (.resolved res)).error ∧
    b <:+: (sendPromptState s (.resolved res)).error ∧
    (sendPromptState s (.resolved res)).loading = false := by
  have hm : errorText ⟨lit "Error", lit "API Error: " ++ natToStr res.status ++ lit " " ++ b⟩
      = lit "API Error: " ++ natToStr res.status ++ lit " " ++ b := by
    apply errorText_of_message
    have : lit "API Error: " = 65 :: (lit "PI Error: ") := by decide
    simp [this]
  have he : sendPrompt s (.resolved res) =
      [.setError [], .appendMessage ⟨lit "user", .str (trim s.prompt)⟩, .setPrompt [],
        .setLoading true, .fetch (buildRequest (trim s.prompt) s.apiKey),
        .consoleError ⟨lit "Error", lit "API Error: " ++ natToStr res.status ++ lit " " ++ b⟩,
        .setError (lit "API Error: " ++ natToStr res.status ++ lit " " ++ b),
        .setLoading false] := by
    simp only [List.append_assoc] at hm
    simp [sendPrompt, tryBlock, catchBlock, hm, hp, hk, hok, hb]
  have hs : sendPromptState s (.resolved res) =
      { apiKey := s.apiKey, prompt := [], loading := false,
        error := lit "API Error: " ++ natToStr res.status ++ lit " " ++ b,
        messages := s.messages ++ [⟨lit "user", .str (trim s.prompt)⟩] } := by
    simp [sendPromptState, he, State.run, State.step]
  rw [hs]
  refine ⟨rfl, rfl, ?_, ?_, rfl⟩
  · exact ⟨lit "API Error: ", lit " " ++ b, by simp⟩
  · exact ⟨lit "API Error: " ++ natToStr res.status ++ lit " ", [], by simp⟩

/-- Witness of C4: status 401 with body `invalid key`. -/
theorem sendPrompt_api_error_witness :
    trim typedState.prompt ≠ [] ∧ typedState.apiKey ≠ [] ∧ unauthorizedResponse.ok = false ∧
    (sendPromptState typedState (.resolved unauthorizedResponse)).messages
      = typedState.messages ++ [⟨lit "user", .str (trim typedState.prompt)⟩] ∧
    (sendPromptState typedState (.resolved unauthorizedResponse)).error
      = lit "API Error: " ++ natToStr 401 ++ lit " " ++ lit "invalid key" ∧
    (sendPromptState typedState (.resolved unauthorizedResponse)).loading = false :=
  ⟨by decide, by decide, by decide,
    (sendPrompt_api_error typedState unauthorizedResponse (lit "invalid key")
      (by decide) (by decide) (by decide) rfl).1,
    (sendPrompt_api_error typedState unauthorizedResponse (lit "invalid key")
      (by decide) (by decide) (by decide) rfl).2.1,
    (sendPrompt_api_error typedState unauthorizedResponse (lit "invalid key")
      (by decide) (by decide) (by decide) rfl).2.2.2.2⟩

/-- C5: for a non-empty trimmed prompt and any prior state with an empty key,
`sendPrompt` appends no turn, ends with the missing-key message as the error,
calls `fetch` not at all and never sets the loading flag. -/
theorem sendPrompt_missing_key (s : State) (reply : FetchResult)
    (hp : trim s.prompt ≠ []) (hk : s.apiKey = []) :
    (sendPromptState s reply).messages = s.messages ∧
    (sendPromptState s reply).error
      = lit "Missing Groq API key. Paste it in the box or use a backend proxy." ∧
    requestsOf (sendPrompt s reply) = [] ∧
    (∀ b, Effect.setLoading b ∉ sendPrompt s reply) ∧
    (sendPromptState s reply).loading = s.loading := by
  have he : sendPrompt s reply = [.setError [], .setError missingKeyMessage] := by
    simp [sendPrompt, hp, hk]
  rw [sendPromptState, he]
  simp [State.run, State.step, requestsOf, missingKeyMessage]

/-- Witness of C5: the prompt ` hi ` submitted after the key has been cleared. -/
theorem sendPrompt_missing_key_witness :
    trim typedState.prompt ≠ [] ∧
    (sendPromptState { typedState with apiKey := [] }
      (.resolved (okResponse .null))).messages = [] ∧
    requestsOf (sendPrompt { typedState with apiKey := [] } (.resolved (okResponse .null)))
      = [] :=
  ⟨by decide,
    (sendPrompt_missing_key { typedState with apiKey := [] } (.resolved (okResponse .null))
      (by decide) rfl).1,
    (sendPrompt_missing_key { typedState with apiKey := [] } (.resolved (okResponse .null))
      (by decide) rfl).2.2.1⟩

/-- C7: for a non-empty trimmed prompt, a non-empty key and a 2xx response whose
parsed payload has no `choices` field, the assistant turn appended holds
`JSON.stringify` of the whole payload and the error string ends empty. -/
theorem sendPrompt_no_choices (s : State) (res : Response) (data : Json)
    (hp : trim s.prompt ≠ []) (hk : s.apiKey ≠ []) (hok : res.ok = true)
    (hj : res.json = .ok data) (hc : getField data (lit "choices") = none) :
    (sendPromptState s (.resolved res)).messages =
      s.messages ++ [⟨lit "user", .str (trim s.prompt)⟩,
        ⟨lit "assistant", .str (stringify data)⟩] ∧
    (sendPromptState s (.resolved res)).error = [] := by
  have h1 : firstChoice data = none := by
    unfold firstChoice
    have : optMember (some data) (lit "choices") = none := by
      cases data <;> simp_all [optMember]
    rw [this]; rfl
  have h2 : assistantContent data = .str (stringify data) := by
    simp [assistantContent, extractContent, h1, choiceContent, optMember, jsOr, truthy,
      choiceOrData]
  rw [sendPromptState_of_json s res data hp hk hok hj, h2]
  exact ⟨rfl, rfl⟩

/-- Witness of C7: the payload `{"id":"x"}`. -/
theorem sendPrompt_no_choices_witness :
    trim typedState.prompt ≠ [] ∧ typedState.apiKey ≠ [] ∧
    (sendPromptState typedState
      (.resolved (okResponse (.obj [(lit "id", .str (lit "x"))])))).messages =
      [⟨lit "user", .str (lit "hi")⟩,
        ⟨lit "assistant", .str (lit "\x7b\"id\":\"x\"\x7d")⟩] :=
  ⟨by decide, by decide,
    (sendPrompt_no_choices typedState (okResponse (.obj [(lit "id", .str (lit "x"))]))
      (.obj [(lit "id", .str (lit "x"))]) (by decide) (by decide) (by decide) rfl rfl).1⟩

/-- C8: whatever the conversation held so far, a submission with a non-empty
trimmed prompt and a non-empty key calls `fetch` exactly once, with arguments
fixed by the trimmed prompt and the key alone: method `POST`, the Groq
endpoint, the header `Authorization` equal to `"Bearer " + key`, and as body
the serialization of the fixed model, a `messages` list of the one element
`{role: "user", content: [{type: "text", text: prompt}]}`, temperature 0.2 and
`max_tokens` 1024. -/
theorem sendPrompt_request (s : State) (reply : FetchResult)
    (hp : trim s.prompt ≠ []) (hk : s.apiKey ≠ []) :
    requestsOf (sendPrompt s reply) =
      [{ url := lit "https://api.groq.com/openai/v1/chat/completions"
         method := lit "POST"
         headers := [(lit "Content-Type", lit "application/json"),
           (lit "Authorization", lit "Bearer " ++ s.apiKey)]
         body := stringify (.obj [
           (lit "model", .str (lit "meta-llama/llama-4-scout-17b-16e-instruct")),
           (lit "messages", .arr [.obj [
             (lit "role", .str (lit "user")),
             (lit "content",
               .arr [.obj [(lit "type", .str (lit "text")), (lit "text", .str (trim s.prompt))]])]]),
           (lit "temperature", .num (.finite (lit "0.2"))),
           (lit "max_tokens", .num (.finite (lit "1024")))]) }] := by
  have hreq : ∀ e, requestsOf ((tryBlock (trim s.prompt) s.apiKey reply).1 ++ e)
      = buildRequest (trim s.prompt) s.apiKey :: requestsOf e := by
    intro e
    unfold tryBlock
    cases reply with
    | rejected err => simp [requestsOf]
    | resolved res =>
      cases hok : res.ok <;> cases ht : res.text <;> cases hj : res.json <;>
        simp [requestsOf, hok, ht, hj]
  have hcatch : ∀ o, requestsOf (catchBlock o ++ [.setLoading false]) = [] := by
    intro o
    cases o <;> simp [catchBlock, requestsOf]
  simp only [sendPrompt, hp, hk, if_false, requestsOf, List.cons_append, List.nil_append,
    List.append_assoc]
  rw [hreq, hcatch]
  rfl

set_option maxRecDepth 8000 in
/-- Witness of C8: the request issued for the prompt ` hi ` and the key `k`,
with an earlier exchange on display. -/
theorem sendPrompt_request_witness :
    trim (lit " hi ") ≠ [] ∧ lit "k" ≠ [] ∧
    requestsOf (sendPrompt { typedState with messages := [⟨lit "user", .str (lit "q")⟩] }
      (.resolved unauthorizedResponse)) =
      [{ url := lit "https://api.groq.com/openai/v1/chat/completions"
         method := lit "POST"
         headers := [(lit "Content-Type", lit "application/json"),
           (lit "Authorization", lit "Bearer k")]
         body := lit ("\x7b\"model\":\"meta-llama/llama-4-scout-17b-16e-instruct\"," ++
           "\"messages\":[\x7b\"role\":\"user\",\"content\":[\x7b\"type\":\"text\"," ++
           "\"text\":\"hi\"\x7d]\x7d],\"temperature\":0.2,\"max_tokens\":1024\x7d") }] :=
  ⟨by decide, by decide,
    (sendPrompt_request { typedState with messages := [⟨lit "user", .str (lit "q")⟩] }
      (.resolved unauthorizedResponse) (by decide) (by decide)).trans rfl⟩

/-- C6, refuted as stated: a fragment whose text is the empty string is not
joined as that text but as its own serialization. -/
theorem sendPrompt_empty_fragment_serialized :
    optMember (optMember
      (firstChoice (payloadOfContent (.arr [textFragment (lit "a"), textFragment []])))
      (lit "message")) (lit "content") = some (.arr [textFragment (lit "a"), textFragment []]) ∧
    getField (textFragment (lit "a")) (lit "text") = some (.str (lit "a")) ∧
    getField (textFragment []) (lit "text") = some (.str []) ∧
    (sendPromptState typedState (.resolved (okResponse
      (payloadOfContent (.arr [textFragment (lit "a"), textFragment []]))))).messages =
      [⟨lit "user", .str (lit "hi")⟩,
        ⟨lit "assistant", .str (lit "a\n\x7b\"type\":\"text\",\"text\":\"\"\x7d")⟩] ∧
    (sendPromptState typedState (.resolved (okResponse
      (payloadOfContent (.arr [textFragment (lit "a"), textFragment []]))))).messages ≠
      typedState.messages ++ [⟨lit "user", .str (trim typedState.prompt)⟩,
        ⟨lit "assistant", .str (List.intercalate (lit "\n") [lit "a", []])⟩] := by
  refine ⟨rfl, rfl, rfl, rfl, ?_⟩
  intro h
  exact absurd (congrArg (fun m => m.map (fun t => stringify t.content)) h) (by decide)

/-- C6, as amended: for a 2xx response whose `choices[0].message.content` is an
array of fragments whose `text` fields are non-empty strings `t1..tn`, the
assistant turn appended holds `t1..tn` joined by a newline. -/
theorem sendPrompt_fragments_joined (s : State) (res : Response) (data : Json)
    (items : List Json) (texts : List JStr)
    (hp : trim s.prompt ≠ []) (hk : s.apiKey ≠ []) (hok : res.ok = true)
    (hj : res.json = .ok data)
    (hc : optMember (optMember (firstChoice data) (lit "message")) (lit "content")
      = some (.arr items))
    (ht : List.Forall₂ (fun c t => getField c (lit "text") = some (.str t) ∧ t ≠ [])
      items texts) :
    (sendPromptState s (.resolved res)).messages =
      s.messages ++ [⟨lit "user", .str (trim s.prompt)⟩,
        ⟨lit "assistant", .str (List.intercalate (lit "\n") texts)⟩] := by
  have hsel : choiceContent (firstChoice data) = some (.arr items) := by
    simp [choiceContent, hc, jsOr, truthy, Json.truthy]
  have ha : assistantContent data = .str (List.intercalate (lit "\n") texts) := by
    simp [assistantContent, extractContent, hsel, Json.truthy,
      mapFragments_of_texts items texts ht, join_strings]
  rw [sendPromptState_of_json s res data hp hk hok hj, ha]

/-- Witness of C6 (amended): the fragments `a` and `b` give `a\nb`. -/
theorem sendPrompt_fragments_joined_witness :
    trim typedState.prompt ≠ [] ∧ typedState.apiKey ≠ [] ∧
    (sendPromptState typedState (.resolved (okResponse
      (payloadOfContent (.arr [textFragment (lit "a"), textFragment (lit "b")]))))).messages =
      [⟨lit "user", .str (lit "hi")⟩, ⟨lit "assistant", .str (lit "a\nb")⟩] :=
  ⟨by decide, by decide,
    sendPrompt_fragments_joined typedState
      (okResponse (payloadOfContent (.arr [textFragment (lit "a"), textFragment (lit "b")])))
      (payloadOfContent (.arr [textFragment (lit "a"), textFragment (lit "b")]))
      [textFragment (lit "a"), textFragment (lit "b")] [lit "a", lit "b"]
      (by decide) (by decide) (by decide) rfl rfl
      (List.Forall₂.cons ⟨rfl, by decide⟩ (List.Forall₂.cons ⟨rfl, by decide⟩ List.Forall₂.nil))⟩

/-- C9, refuted as stated: a first choice whose `message.content` is the empty
string and whose `content` is `hi` is displayed as `hi`; the lower-priority
field is used although the higher one is present, and the displayed text is not
the string held by `message.content`. -/
theorem assistantContent_empty_message_shadowed :
    optMember (optMember (firstChoice (payloadOfChoice shadowedChoice)) (lit "message"))
      (lit "content") = some (.str []) ∧
    optMember (firstChoice (payloadOfChoice shadowedChoice)) (lit "content")
      = some (.str (lit "hi")) ∧
    assistantContent (payloadOfChoice shadowedChoice) = .str (lit "hi") ∧
    assistantContent (payloadOfChoice shadowedChoice) ≠ .str [] := by
  refine ⟨rfl, rfl, rfl, ?_⟩
  intro h
  exact absurd (congrArg stringify h) (by decide)

/-- C9, as amended: the operand of line 78 is chosen by truthiness, in the order
`choices[0].message.content`, `choices[0].content`, `choices[0].text`: a field
yields to the next one exactly when it is absent or falsy (`""`, `0`, `false`,
`null`).  So a non-empty string in `message.content` is the assistant content
whatever the two other fields hold; a non-empty string in `content` is the
assistant content when `message.content` is absent or falsy; and a non-empty
string in `text` is the assistant content when both others are absent or
falsy. -/
theorem assistantContent_priority (data : Json) :
    (choiceContent (firstChoice data) =
      if truthy (optMember (optMember (firstChoice data) (lit "message")) (lit "content")) then
        optMember (optMember (firstChoice data) (lit "message")) (lit "content")
      else if truthy (optMember (firstChoice data) (lit "content")) then
        optMember (firstChoice data) (lit "content")
      else optMember (firstChoice data) (lit "text")) ∧
    (∀ X : JStr, X ≠ [] →
      optMember (optMember (firstChoice data) (lit "message")) (lit "content") = some (.str X) →
      assistantContent data = .str X) ∧
    (∀ Y : JStr, Y ≠ [] →
      truthy (optMember (optMember (firstChoice data) (lit "message")) (lit "content")) = false →
      optMember (firstChoice data) (lit "content") = some (.str Y) →
      assistantContent data = .str Y) ∧
    (∀ Z : JStr, Z ≠ [] →
      truthy (optMember (optMember (firstChoice data) (lit "message")) (lit "content")) = false →
      truthy (optMember (firstChoice data) (lit "content")) = false →
      optMember (firstChoice data) (lit "text") = some (.str Z) →
      assistantContent data = .str Z) := by
  refine ⟨?_, ?_, ?_, ?_⟩
  · unfold choiceContent jsOr
    by_cases h1 : truthy (optMember (optMember (firstChoice data) (lit "message"))
        (lit "content")) = true
    · simp [h1]
    · simp [h1]
  · intro X hX h
    apply assistantContent_of_string data X _ hX
    simp [choiceContent, h, jsOr, truthy, Json.truthy, hX]
  · intro Y hY h1 h2
    apply assistantContent_of_string data Y _ hY
    have hy : truthy (some (Json.str Y)) = true := by simp [truthy, Json.truthy, hY]
    rw [choiceContent, jsOr_of_falsy _ _ h1, h2, jsOr_of_truthy _ _ hy]
  · intro Z hZ h1 h2 h3
    apply assistantContent_of_string data Z _ hZ
    rw [choiceContent, jsOr_of_falsy _ _ h1, jsOr_of_falsy _ _ h2, h3]

/-- Witness of C9 (amended): with a `null` message content and an empty
`content`, the field `text` is displayed. -/
theorem assistantContent_priority_witness :
    assistantContent (payloadOfChoice textOnlyChoice) = .str (lit "hey") :=
  (assistantContent_priority (payloadOfChoice textOnlyChoice)).2.2.2 (lit "hey") (by decide)
    rfl rfl rfl

/-! ## The key resolver: claims -/

/-- C10, refuted as stated: when the read of `window.__REACT_APP_GROQ_API_KEY`
throws, `window.__GROQ_API_KEY` is never consulted; the function returns the
empty string although the third source holds the non-empty string
`gsk_legacy`. -/
theorem getInitialApiKey_skips_legacy_after_throw :
    throwingPrimaryEnv.buildTimeSource = .inaccessible ∧
    throwingPrimaryEnv.primarySource = .inaccessible ∧
    throwingPrimaryEnv.legacySource = .value (lit "gsk_legacy") ∧
    specResolveApiKey [throwingPrimaryEnv.buildTimeSource, throwingPrimaryEnv.primarySource,
      throwingPrimaryEnv.legacySource] = lit "gsk_legacy" ∧
    getInitialApiKey throwingPrimaryEnv = .ok (lit "") ∧
    getInitialApiKey throwingPrimaryEnv ≠
      .ok (specResolveApiKey [throwingPrimaryEnv.buildTimeSource, throwingPrimaryEnv.primarySource,
        throwingPrimaryEnv.legacySource]) := by
  refine ⟨rfl, rfl, rfl, by decide, rfl, ?_⟩
  intro h
  have h2 : (lit "" : JStr) = lit "gsk_legacy" := Except.ok.inj h
  exact absurd h2 (by decide)

/-- C10, as amended: `getInitialApiKey` never throws, and it returns the first
non-empty string among the sources it consults, else the empty string; it
consults `process.env.REACT_APP_GROQ_API_KEY`, then
`window.__REACT_APP_GROQ_API_KEY`, and `window.__GROQ_API_KEY` only when the
second source was not inaccessible. -/
theorem getInitialApiKey_resolution (env : KeyEnv) :
    getInitialApiKey env = .ok (specResolveApiKey
      (if env.primarySource = .inaccessible then [env.buildTimeSource]
       else [env.buildTimeSource, env.primarySource, env.legacySource])) := by
  obtain ⟨p, w⟩ := env
  rcases p with _ | _ | _ | kp <;> rcases w with _ | ⟨_ | _ | kb, _ | _ | kc⟩ <;>
    simp [getInitialApiKey, tryCatch, processBlock, windowBlock, returnIfTruthy,
      KeyEnv.buildTimeSource, KeyEnv.primarySource, KeyEnv.legacySource, Source.ofRead,
      specResolveApiKey] <;>
    (repeat (first | split | rfl | simp_all))

end GroqAgent
